import Mathlib

/-!
Shallow embedding of the command-execution core of `src/stata.py`
(the `run` dispatcher, the `_stata_wrk1` / `_stata_wrk2` output relays,
and the nested mata / python session loops), together with theorems
checking the specification's claims against it.

External collaborators (the engine `config.stlib`, user input, the
`codeop.compile_command` completeness checker and the
`stout.output_get_interactive_result` formatter) are modelled as
oracles carried in an `Env` record; the code's observable actions
(engine calls, prints, temp-file writes, poller lifecycle calls) are
recorded as an ordered trace of `Event`s.
-/

namespace Stata

/-- Result of one engine `StataSO_Execute` call, as seen by the caller:
whether a `KeyboardInterrupt` arrived during the call, the return code,
and the output chunks that successive `config.get_output()` polls will
yield afterwards (an empty string, or running out, means "no more"). -/
structure ExecOutcome where
  interrupted : Bool
  rc : Int
  chunks : List String
deriving DecidableEq

/-- Outcome of `codeop.compile_command` on accumulated python source:
a code object (complete), `None` (incomplete), or one of the hard parse
errors `OverflowError` / `SyntaxError` / `ValueError`. -/
inductive CompileRes
  | complete
  | incomplete
  | hardError
deriving DecidableEq

/-- Observable action performed by the core, in program order. -/
inductive Event
  | clearBuffer
  | execute (text : String) (echo : Bool)
  | printOut (s : String) (newline : Bool)
  | printConsole (s : String)
  | displayln (s : String)
  | writeFile (path : String) (content : String)
  | grDisplay
  | pollerStart
  | pollerPut (rc : Int)
  | pollerJoin
  | pollerDone
  | setBreak
deriving DecidableEq

/-- Mutable state threaded through a call: number of engine execute
calls made so far, user-input lines consumed, temp files created, and
the module-global `rc2`. -/
structure S where
  execN : Nat
  inN : Nat
  tmpN : Nat
  rc2 : Int
deriving DecidableEq

/-- The oracles: process configuration and the external collaborators. -/
structure Env where
  streaming : Bool
  grshow : Bool
  stipython : Int
  compileCommand : String → CompileRes
  interactiveResult : String → String → Bool → Nat → String
  engine : Nat → ExecOutcome
  userInput : Nat → String

/-- Helper for `splitlines`: splits on a newline character, dropping a
final empty piece produced by a trailing newline (Python `str.splitlines`
semantics restricted to the newline character). -/
def splitlinesGo (cur : List Char) : List Char → List String
  | [] => [String.mk cur.reverse]
  | c :: rest =>
    if c = '\n' then
      match rest with
      | [] => [String.mk cur.reverse]
      | _ :: _ => String.mk cur.reverse :: splitlinesGo [] rest
    else splitlinesGo (c :: cur) rest

/-- Python's `cmd.splitlines()` as used by `run` (newline separators). -/
def splitlines (s : String) : List String :=
  match s.data with
  | [] => []
  | l => splitlinesGo [] l

/-- Python's `str.strip()` on the underlying character list: drop
leading and trailing whitespace. -/
def stripChars (l : List Char) : List Char :=
  ((l.dropWhile Char.isWhitespace).reverse.dropWhile Char.isWhitespace).reverse

/-- Python's `str.strip()`. -/
def pstrip (s : String) : String := String.mk (stripChars s.data)

/-- The notice printed by the `KeyboardInterrupt` handlers. -/
def kbNotice : String := "\nKeyboardInterrupt: --break--"

/-- Fresh temp-file path returned by `sfi.SFIToolkit.getTempFile()`,
modelled as a counter-indexed name. -/
def tempName (n : Nat) : String := "STD_TMP_" ++ toString n

/-- Non-streaming output drain of `_stata_wrk1`: polls chunks while
nonempty; on a nonzero return code the first nonempty chunk (or a fixed
message when there is none) is raised as `SystemError`. -/
def drain1 (rc : Int) : List String → List Event × Except String Unit
  | [] =>
    if rc ≠ 0 then ([], .error "failed to execute the specified command")
    else ([], .ok ())
  | c :: rest =>
    if c = "" then
      if rc ≠ 0 then ([], .error "failed to execute the specified command")
      else ([], .ok ())
    else if rc ≠ 0 then ([], .error c)
    else
      (Event.printOut c false :: (drain1 rc rest).1, (drain1 rc rest).2)

/-- `_stata_wrk1(cmd, echo)`: streaming mode starts a poller, executes,
puts the return code on the queue, joins and stops the poller; the
`KeyboardInterrupt` handler stops the poller (without joining), requests
an engine break and prints a notice.  Non-streaming mode executes and
drains synchronously. -/
def wrk1 (env : Env) (s : S) (cmd : String) (echo : Bool) :
    List Event × S × Except String Unit :=
  let o := env.engine s.execN
  let s' : S := { s with execN := s.execN + 1 }
  if env.streaming then
    if o.interrupted then
      ([.pollerStart, .execute cmd echo, .pollerDone, .setBreak, .printConsole kbNotice],
        s', .ok ())
    else
      ([.pollerStart, .execute cmd echo, .pollerPut o.rc, .pollerJoin, .pollerDone],
        s', .ok ())
  else
    if o.interrupted then
      ([.execute cmd echo, .setBreak, .printConsole kbNotice], s', .ok ())
    else
      (Event.execute cmd echo :: (drain1 o.rc o.chunks).1, s', (drain1 o.rc o.chunks).2)

/-- Non-streaming success-path drain of `_stata_wrk2` (`rc2 == 0`):
prints chunks while a further chunk is available, passing each through
`stout.output_get_interactive_result` when `mode != 1`, and prints the
final chunk with a newline exactly when `mode == 1`. -/
def drain2ok (env : Env) (realCmd : String) (colon : Bool) (mode : Nat) :
    String → List String → List Event
  | output, [] =>
    if output = "" then []
    else if mode ≠ 1 then
      [Event.printOut (env.interactiveResult output realCmd colon mode) false]
    else [Event.printOut output true]
  | output, c :: rest =>
    if output = "" then []
    else if c = "" then
      if mode ≠ 1 then
        [Event.printOut (env.interactiveResult output realCmd colon mode) false]
      else [Event.printOut output true]
    else
      let out2 := if mode ≠ 1 then env.interactiveResult output realCmd colon mode else output
      Event.printOut out2 false :: drain2ok env realCmd colon mode c rest

/-- `_stata_wrk2(cmd, real_cmd, colon, mode)`: like `wrk1` but records
the return code in the global `rc2`; on a nonzero, non-3000 code the
output is printed interactively when `mode != 1` and raised as
`SystemError` when `mode == 1`; a 3000 code produces nothing. -/
def wrk2 (env : Env) (s : S) (cmd realCmd : String) (colon : Bool) (mode : Nat) :
    List Event × S × Except String Unit :=
  let o := env.engine s.execN
  let s' : S := { s with execN := s.execN + 1 }
  if env.streaming then
    if o.interrupted then
      ([.pollerStart, .execute cmd false, .pollerDone, .setBreak, .printConsole kbNotice],
        s', .ok ())
    else
      ([.pollerStart, .execute cmd false, .pollerPut o.rc, .pollerJoin, .pollerDone],
        { s' with rc2 := o.rc }, .ok ())
  else
    if o.interrupted then
      ([.execute cmd false, .setBreak, .printConsole kbNotice], s', .ok ())
    else
      let s2 : S := { s' with rc2 := o.rc }
      let output := o.chunks.headD ""
      if o.rc ≠ 0 then
        if o.rc ≠ 3000 then
          if mode ≠ 1 then
            ([.execute cmd false,
              .printOut (env.interactiveResult output realCmd colon mode) false], s2, .ok ())
          else ([.execute cmd false], s2, .error output)
        else ([.execute cmd false], s2, .ok ())
      else
        (Event.execute cmd false :: drain2ok env realCmd colon mode output o.chunks.tail,
          s2, .ok ())

/-- What the session loop does after processing one non-`end` line:
await another line under the given prompt with the given accumulated
source and transcript, exit the session loop, or propagate an error. -/
inductive SessNext
  | await (inprompt inc1 inc2 : String)
  | stop
  | raised (msg : String)
deriving DecidableEq

/-- The `incmd[:6] != "stata:"` test of the python session loop. -/
def stataEscape (t : String) : Bool := t.data.take 6 == "stata:".data

/-- Body of the mata session loop for one non-`end` input line `incmd`
(already stripped): accumulate it, stage the unit, execute the include
and interpret `rc2` (3000 continues at the `"> "` prompt keeping the
accumulated source; other nonzero codes leave the loop; 0 resets to the
`": "` prompt). -/
def mataStep (env : Env) (qui colon : Bool) (inputCmd : String)
    (incmd inprompt inc1 inc2 : String) (s : S) : List Event × S × SessNext :=
  let incmdN := incmd ++ "\n"
  let inc1' := inc1 ++ incmdN
  let inc2' := inc2 ++ (inprompt ++ incmdN)
  let tmpf := tempName s.tmpN
  let s1 : S := { s with tmpN := s.tmpN + 1 }
  let wev : Event := .writeFile tmpf (inputCmd ++ "\n" ++ inc1' ++ "end")
  let w := wrk2 env s1 ((if qui then "qui include " else "include ") ++ tmpf) inc2' colon 2
  match w.2.2 with
  | .error e => (wev :: w.1, w.2.1, .raised e)
  | .ok _ =>
    if w.2.1.rc2 ≠ 0 then
      if w.2.1.rc2 ≠ 3000 then (wev :: w.1, w.2.1, .stop)
      else (wev :: w.1, w.2.1, .await "> " inc1' inc2')
    else (wev :: w.1, w.2.1, .await ": " "" "")

/-- Body of the python session loop for one non-`end` input line `incmd`
(taken as typed): accumulate it, test the prompt-prefixed line against
the `stata:` escape, otherwise consult the completeness checker; when
the unit is to be executed, stage it and run the include, leaving the
loop on any nonzero `rc2`; otherwise await a continuation line. -/
def pythonStep (env : Env) (qui colon : Bool) (inputCmd : String)
    (incmd inprompt inc1 inc2 : String) (s : S) : List Event × S × SessNext :=
  let inc1a := inc1 ++ incmd
  let incmdP := inprompt ++ incmd
  let inc2a := inc2 ++ incmdP
  let step :=
    if stataEscape incmdP then (true, inc1a, inc2a)
    else
      match env.compileCommand inc1a with
      | .complete => (true, inc1a ++ "\n", inc2a ++ "\n")
      | .incomplete => (false, inc1a ++ "\n", inc2a ++ "\n")
      | .hardError => (true, inc1a, inc2a)
  if step.1 then
    let tmpf := tempName s.tmpN
    let s1 : S := { s with tmpN := s.tmpN + 1 }
    let wev : Event := .writeFile tmpf (inputCmd ++ "\n" ++ step.2.1 ++ "end")
    let w := wrk2 env s1 ((if qui then "qui include " else "include ") ++ tmpf) step.2.2 colon 3
    match w.2.2 with
    | .error e => (wev :: w.1, w.2.1, .raised e)
    | .ok _ =>
      if w.2.1.rc2 ≠ 0 then (wev :: w.1, w.2.1, .stop)
      else (wev :: w.1, w.2.1, .await ">>> " "" "")
  else ([], s, .await "... " step.2.1 step.2.2)

/-- The mata session loop of `run`: read a line from the input stream
`uin` (the `_get_user_input` oracle; `run` passes `env.userInput`),
strip it, terminate on `end` (printing the closing separator),
otherwise process it with `mataStep` and continue as directed.  `none`
means the fuel bound was reached before the session finished. -/
def mataLoop (env : Env) (uin : Nat → String) (qui colon : Bool) (inputCmd : String) :
    Nat → String → String → String → S → Option (List Event × S × Except String Unit)
  | 0, _, _, _, _ => none
  | fuel + 1, inprompt, inc1, inc2, s =>
    let incmd := pstrip (uin s.inN)
    let s1 : S := { s with inN := s.inN + 1 }
    if incmd = "end" then some ([Event.displayln "\x7bhline\x7d"], s1, .ok ())
    else
      let m := mataStep env qui colon inputCmd incmd inprompt inc1 inc2 s1
      match m.2.2 with
      | .raised e => some (m.1, m.2.1, .error e)
      | .stop => some (m.1, m.2.1, .ok ())
      | .await ip i1 i2 =>
        match mataLoop env uin qui colon inputCmd fuel ip i1 i2 m.2.1 with
        | none => none
        | some x => some (m.1 ++ x.1, x.2.1, x.2.2)

/-- The python session loop of `run`: read a line (as typed) from the
input stream `uin`, terminate on the exact line `end`, otherwise
process it with `pythonStep`. -/
def pythonLoop (env : Env) (uin : Nat → String) (qui colon : Bool) (inputCmd : String) :
    Nat → String → String → String → S → Option (List Event × S × Except String Unit)
  | 0, _, _, _, _ => none
  | fuel + 1, inprompt, inc1, inc2, s =>
    let l := uin s.inN
    let s1 : S := { s with inN := s.inN + 1 }
    if l = "end" then some ([Event.displayln "\x7bhline\x7d"], s1, .ok ())
    else
      let m := pythonStep env qui colon inputCmd l inprompt inc1 inc2 s1
      match m.2.2 with
      | .raised e => some (m.1, m.2.1, .error e)
      | .stop => some (m.1, m.2.1, .ok ())
      | .await ip i1 i2 =>
        match pythonLoop env uin qui colon inputCmd fuel ip i1 i2 m.2.1 with
        | none => none
        | some x => some (m.1 ++ x.1, x.2.1, x.2.2)

/-- A bare `config.stlib.StataSO_Execute` call whose result is ignored
(the graphics-capture toggles). -/
def directExec (s : S) (text : String) : List Event × S :=
  ([Event.execute text false], { s with execN := s.execN + 1 })

/-- The tail of `run`: when no exception propagated and `inline` is on,
resolve and call the graph display hook (for IPython at least 3) and
execute the capture-off toggle; an exception skips all of it. -/
def finish (env : Env) (inl : Bool) (ev : List Event) (s : S) (r : Except String Unit) :
    Option (List Event × S × Except String Unit) :=
  match r with
  | .error e => some (ev, s, .error e)
  | .ok _ =>
    if inl then
      let evD := if env.stipython ≥ 3 then [Event.grDisplay] else []
      some (ev ++ evD ++ (directExec s "qui _gr_list off").1,
        (directExec s "qui _gr_list off").2, .ok ())
    else some (ev, s, .ok ())

/-- Banner printed when entering a mata session. -/
def mataBanner : String := "\x7bhline 49\x7d mata (type \x7bcmd:end\x7d to exit) \x7bhline\x7d"

/-- Banner printed when entering a python session. -/
def pythonBanner : String :=
  "\x7bhline 47\x7d python (type \x7bcmd:end\x7d to exit) \x7bhline\x7d"

/-- The `run(cmd, quietly, echo, inline)` dispatcher: clear the output
buffer, split the command into lines, and dispatch on the line count and
the session trigger tokens.  `fuel` bounds the session loops; `s0` is
the incoming mutable state. -/
def run (env : Env) (fuel : Nat) (s0 : S) (cmd : String) (quietly echo : Bool)
    (inline : Option Bool) : Option (List Event × S × Except String Unit) :=
  let inl := inline.getD env.grshow
  let ev0 : List Event := [Event.clearBuffer]
  match splitlines cmd with
  | [] => some (ev0, s0, .ok ())
  | [c] =>
    let g := if inl then directExec s0 "qui _gr_list on" else ([], s0)
    let inputCmd := pstrip c
    if inputCmd = "mata" ∨ inputCmd = "mata:" then
      let colon := inputCmd = "mata:"
      let evH : List Event := [.printConsole (". " ++ inputCmd), .displayln mataBanner]
      match mataLoop env env.userInput quietly colon inputCmd fuel ": " "" "" g.2 with
      | none => none
      | some x => finish env inl (ev0 ++ g.1 ++ evH ++ x.1) x.2.1 x.2.2
    else if inputCmd = "python" ∨ inputCmd = "python:" then
      let colon := inputCmd = "python:"
      let evH : List Event := [.printConsole (". " ++ inputCmd), .displayln pythonBanner]
      match pythonLoop env env.userInput quietly colon inputCmd fuel ">>> " "" "" g.2 with
      | none => none
      | some x => finish env inl (ev0 ++ g.1 ++ evH ++ x.1) x.2.1 x.2.2
    else
      let w := wrk1 env g.2 (if quietly then "qui " ++ c else c) echo
      finish env inl (ev0 ++ g.1 ++ w.1) w.2.1 w.2.2
  | _ :: _ :: _ =>
    let g := if inl then directExec s0 "qui _gr_list on" else ([], s0)
    let tmpf := tempName g.2.tmpN
    let s2 : S := { g.2 with tmpN := g.2.tmpN + 1 }
    let w := wrk2 env s2 ((if quietly then "qui include " else "include ") ++ tmpf) "" false 1
    finish env inl (ev0 ++ g.1 ++ (Event.writeFile tmpf cmd :: w.1)) w.2.1 w.2.2

/-- Is this event an engine execute call? -/
def Event.isExec : Event → Bool
  | .execute _ _ => true
  | _ => false

/-- Is this event a temp-file write? -/
def Event.isWrite : Event → Bool
  | .writeFile _ _ => true
  | _ => false

/-- Is this event a forwarded-output print? -/
def Event.isPrint : Event → Bool
  | .printOut _ _ => true
  | _ => false

/-- Events that are neither engine executes, temp-file writes, nor
buffer clears (prints, poller lifecycle calls, break requests, banner
output). -/
def Event.passive : Event → Bool
  | .execute _ _ => false
  | .writeFile _ _ => false
  | .clearBuffer => false
  | _ => true

instance : DecidableEq (Except String Unit) := fun a b =>
  match a, b with
  | .error x, .error y =>
    if h : x = y then .isTrue (by rw [h]) else .isFalse (by simp [h])
  | .ok x, .ok y => .isTrue (by cases x; cases y; rfl)
  | .error _, .ok _ => .isFalse (by simp)
  | .ok _, .error _ => .isFalse (by simp)

/-- Concrete oracle environment: non-streaming, graphics display off,
completeness checker always reports complete, engine always returns
code 498 with one output chunk, user always types `x`. -/
def envErr : Env where
  streaming := false
  grshow := false
  stipython := 0
  compileCommand := fun _ => .complete
  interactiveResult := fun o _ _ _ => o
  engine := fun _ => ⟨false, 498, ["err"]⟩
  userInput := fun _ => "x"

/-- Engine variant always returning the continuation code 3000. -/
def env3000 : Env := { envErr with engine := fun _ => ⟨false, 3000, []⟩ }

/-- Engine variant always succeeding with one chunk of output. -/
def envOk : Env := { envErr with engine := fun _ => ⟨false, 0, ["out"]⟩ }

/-- Streaming variant whose engine calls are interrupted. -/
def envInt : Env := { envErr with streaming := true, engine := fun _ => ⟨true, 0, []⟩ }

/-- Streaming variant whose engine calls succeed. -/
def envStrOk : Env := { envErr with streaming := true, engine := fun _ => ⟨false, 0, []⟩ }

/-- Succeeding engine with a completeness checker that reports the line
`stata:(` as incomplete. -/
def envEsc : Env := { envErr with
  engine := fun _ => ⟨false, 0, []⟩,
  compileCommand := fun t => if t = "stata:(" then .incomplete else .complete }

/-- Succeeding engine with a completeness checker that reports the
accumulated source `if True:` as incomplete and everything else as
complete. -/
def envIf : Env := { envErr with
  engine := fun _ => ⟨false, 0, []⟩,
  compileCommand := fun t => if t = "if True:" then .incomplete else .complete }

/-- Succeeding engine; the user types ` end ` (whitespace-padded) and
then `end`. -/
def envPadEnd : Env := { envErr with
  engine := fun _ => ⟨false, 0, []⟩,
  userInput := fun n => if n = 0 then " end " else "end" }

/-- Succeeding engine; the user always types `end`. -/
def envPlainEnd : Env := { envPadEnd with userInput := fun _ => "end" }

theorem finish_false (env : Env) (ev : List Event) (s : S) (r : Except String Unit) :
    finish env false ev s r = some (ev, s, r) := by
  cases r <;> rfl

theorem finish_true_ok (env : Env) (ev : List Event) (s : S) (r : Except String Unit)
    (ev' : List Event) (s' : S)
    (h : finish env true ev s r = some (ev', s', Except.ok ())) :
    ∃ mid, ev' = ev ++ mid ++ [Event.execute "qui _gr_list off" false] := by
  cases r with
  | error e =>
    rw [show finish env true ev s (Except.error e) = some (ev, s, Except.error e) from rfl] at h
    have h2 := congrArg (fun x => x.2.2) (Option.some.inj h)
    simp at h2
  | ok u =>
    rw [show finish env true ev s (Except.ok u) =
        some (ev ++ (if env.stipython ≥ 3 then [Event.grDisplay] else []) ++
          [Event.execute "qui _gr_list off" false],
          { s with execN := s.execN + 1 }, Except.ok ()) from rfl] at h
    exact ⟨_, (congrArg (fun x => x.1) (Option.some.inj h)).symm⟩

theorem passive_not_exec {e : Event} (h : e.passive = true) : e.isExec = false := by
  cases e <;> simp_all [Event.passive, Event.isExec]

theorem passive_not_write {e : Event} (h : e.passive = true) : e.isWrite = false := by
  cases e <;> simp_all [Event.passive, Event.isWrite]

theorem drain1_passive (rc : Int) (cs : List String) :
    ((drain1 rc cs).1).all Event.passive = true := by
  induction cs with
  | nil => unfold drain1; split <;> rfl
  | cons c rest ih =>
    unfold drain1
    split
    · split <;> rfl
    · split
      · rfl
      · simpa [List.all_cons, Event.passive] using ih

theorem drain2ok_passive (env : Env) (realCmd : String) (colon : Bool) (mode : Nat)
    (output : String) (cs : List String) :
    (drain2ok env realCmd colon mode output cs).all Event.passive = true := by
  induction cs generalizing output with
  | nil =>
    unfold drain2ok
    split
    · rfl
    · split <;> rfl
  | cons c rest ih =>
    unfold drain2ok
    split
    · rfl
    · split
      · split <;> rfl
      · simpa [List.all_cons, Event.passive] using ih _

theorem wrk1_shape (env : Env) (s : S) (cmd : String) (echo : Bool) :
    ∃ pre tail r,
      wrk1 env s cmd echo =
        (pre ++ Event.execute cmd echo :: tail, { s with execN := s.execN + 1 }, r) ∧
      pre.all (fun e => e == Event.pollerStart) = true ∧
      tail.all Event.passive = true := by
  by_cases hs : env.streaming = true
  · by_cases hi : (env.engine s.execN).interrupted = true
    · exact ⟨[Event.pollerStart], [.pollerDone, .setBreak, .printConsole kbNotice],
        Except.ok (), by simp [wrk1, hs, hi], rfl, rfl⟩
    · exact ⟨[Event.pollerStart],
        [.pollerPut (env.engine s.execN).rc, .pollerJoin, .pollerDone],
        Except.ok (), by simp [wrk1, hs, hi], rfl, rfl⟩
  · by_cases hi : (env.engine s.execN).interrupted = true
    · exact ⟨[], [.setBreak, .printConsole kbNotice], Except.ok (),
        by simp [wrk1, hs, hi], rfl, rfl⟩
    · exact ⟨[], (drain1 (env.engine s.execN).rc (env.engine s.execN).chunks).1,
        (drain1 (env.engine s.execN).rc (env.engine s.execN).chunks).2,
        by simp [wrk1, hs, hi], rfl, drain1_passive _ _⟩

theorem wrk2_shape (env : Env) (s : S) (cmd realCmd : String) (colon : Bool) (mode : Nat) :
    ∃ pre tail s' r,
      wrk2 env s cmd realCmd colon mode = (pre ++ Event.execute cmd false :: tail, s', r) ∧
      pre.all (fun e => e == Event.pollerStart) = true ∧
      tail.all Event.passive = true := by
  by_cases hs : env.streaming = true
  · by_cases hi : (env.engine s.execN).interrupted = true
    · exact ⟨[Event.pollerStart], [.pollerDone, .setBreak, .printConsole kbNotice],
        { s with execN := s.execN + 1 }, Except.ok (), by simp [wrk2, hs, hi], rfl, rfl⟩
    · exact ⟨[Event.pollerStart],
        [.pollerPut (env.engine s.execN).rc, .pollerJoin, .pollerDone],
        { s with execN := s.execN + 1, rc2 := (env.engine s.execN).rc }, Except.ok (),
        by simp [wrk2, hs, hi], rfl, rfl⟩
  · by_cases hi : (env.engine s.execN).interrupted = true
    · exact ⟨[], [.setBreak, .printConsole kbNotice], { s with execN := s.execN + 1 },
        Except.ok (), by simp [wrk2, hs, hi], rfl, rfl⟩
    · by_cases h0 : (env.engine s.execN).rc ≠ 0
      · by_cases h3 : (env.engine s.execN).rc ≠ 3000
        · by_cases hm : mode ≠ 1
          · exact ⟨[], [.printOut (env.interactiveResult
              ((env.engine s.execN).chunks.headD "") realCmd colon mode) false],
              { s with execN := s.execN + 1, rc2 := (env.engine s.execN).rc }, Except.ok (),
              by simp [wrk2, hs, hi, h0, h3, hm], rfl, rfl⟩
          · exact ⟨[], [], { s with execN := s.execN + 1, rc2 := (env.engine s.execN).rc },
              Except.error ((env.engine s.execN).chunks.headD ""),
              by simp [wrk2, hs, hi, h0, h3, hm], rfl, rfl⟩
        · exact ⟨[], [], { s with execN := s.execN + 1, rc2 := (env.engine s.execN).rc },
            Except.ok (), by simp [wrk2, hs, hi, h0, h3], rfl, rfl⟩
      · exact ⟨[], drain2ok env realCmd colon mode ((env.engine s.execN).chunks.headD "")
          ((env.engine s.execN).chunks.tail),
          { s with execN := s.execN + 1, rc2 := (env.engine s.execN).rc }, Except.ok (),
          by simp [wrk2, hs, hi, h0], rfl, drain2ok_passive _ _ _ _ _ _⟩

theorem all_passive_filter_exec {l : List Event} (h : l.all Event.passive = true) :
    l.filter Event.isExec = [] := by
  rw [List.filter_eq_nil_iff]
  intro a ha
  simp [passive_not_exec (List.all_eq_true.mp h a ha)]

theorem all_passive_filter_write {l : List Event} (h : l.all Event.passive = true) :
    l.filter Event.isWrite = [] := by
  rw [List.filter_eq_nil_iff]
  intro a ha
  simp [passive_not_write (List.all_eq_true.mp h a ha)]

theorem all_passive_count_exec {l : List Event} (h : l.all Event.passive = true)
    (t : String) (b : Bool) : l.count (Event.execute t b) = 0 := by
  rw [List.count_eq_zero]
  intro hmem
  have := List.all_eq_true.mp h _ hmem
  simp [Event.passive] at this

theorem all_pollerStart_filter_exec {l : List Event}
    (h : l.all (fun e => e == Event.pollerStart) = true) : l.filter Event.isExec = [] := by
  rw [List.filter_eq_nil_iff]
  intro a ha
  have := List.all_eq_true.mp h a ha
  simp at this
  subst this
  simp [Event.isExec]

theorem all_pollerStart_filter_write {l : List Event}
    (h : l.all (fun e => e == Event.pollerStart) = true) : l.filter Event.isWrite = [] := by
  rw [List.filter_eq_nil_iff]
  intro a ha
  have := List.all_eq_true.mp h a ha
  simp at this
  subst this
  simp [Event.isWrite]

theorem all_pollerStart_count_exec {l : List Event}
    (h : l.all (fun e => e == Event.pollerStart) = true) (t : String) (b : Bool) :
    l.count (Event.execute t b) = 0 := by
  rw [List.count_eq_zero]
  intro hmem
  have := List.all_eq_true.mp h _ hmem
  simp at this

theorem append_ne_fixed (pre fixed : String) (n : Nat) (hn : n ≤ pre.data.length)
    (hne : pre.data.take n ≠ fixed.data.take n) : ∀ p : String, pre ++ p ≠ fixed := by
  intro p h
  apply hne
  have h2 := congrArg (fun t : String => t.data.take n) h
  simpa [String.data_append, List.take_append_of_le_length hn] using h2

theorem include_ne_grOn (p : String) : "include " ++ p ≠ "qui _gr_list on" :=
  append_ne_fixed "include " "qui _gr_list on" 1 (by decide) (by decide) p

theorem include_ne_grOff (p : String) : "include " ++ p ≠ "qui _gr_list off" :=
  append_ne_fixed "include " "qui _gr_list off" 1 (by decide) (by decide) p

theorem quiInclude_ne_grOn (p : String) : "qui include " ++ p ≠ "qui _gr_list on" :=
  append_ne_fixed "qui include " "qui _gr_list on" 5 (by decide) (by decide) p

theorem quiInclude_ne_grOff (p : String) : "qui include " ++ p ≠ "qui _gr_list off" :=
  append_ne_fixed "qui include " "qui _gr_list off" 5 (by decide) (by decide) p

theorem toggle_trace_facts (ev restEv mid : List Event)
    (h : ev = (Event.clearBuffer :: Event.execute "qui _gr_list on" false :: restEv)
      ++ mid ++ [Event.execute "qui _gr_list off" false]) :
    ev[1]? = some (Event.execute "qui _gr_list on" false) ∧
    ev.getLast? = some (Event.execute "qui _gr_list off" false) := by
  subst h
  refine ⟨?_, List.getLast?_concat _⟩
  simp

theorem mataLoop_input_trim (env : Env) (uin uin' : Nat → String) (qui colon : Bool)
    (inputCmd : String) (h : ∀ n, pstrip (uin n) = pstrip (uin' n)) :
    ∀ fuel inprompt inc1 inc2 s,
      mataLoop env uin qui colon inputCmd fuel inprompt inc1 inc2 s =
        mataLoop env uin' qui colon inputCmd fuel inprompt inc1 inc2 s := by
  intro fuel
  induction fuel with
  | zero => intro _ _ _ _; rfl
  | succ n ih =>
    intro inprompt inc1 inc2 s
    simp only [mataLoop]
    rw [← h s.inN]
    by_cases hend : pstrip (uin s.inN) = "end"
    · simp [hend]
    · simp only [hend, if_false]
      cases hm : (mataStep env qui colon inputCmd (pstrip (uin s.inN)) inprompt
        inc1 inc2 { s with inN := s.inN + 1 }).2.2 with
      | raised e => simp only [hm]
      | stop => simp only [hm]
      | await ip i1 i2 =>
        simp only [hm]
        rw [ih ip i1 i2]

/-- C9: when the engine execute call is interrupted (`KeyboardInterrupt`),
both `_stata_wrk1` and `_stata_wrk2` request the engine break exactly once
(`setBreak` occurs once in the returned trace), stop the active poller in
streaming mode, print the cancellation notice, and return `Except.ok`
(no error is raised to the caller). -/
theorem C9_interrupt_handling (env : Env) (s : S) (cmd realCmd : String) (echo colon : Bool)
    (mode : Nat) (hint : (env.engine s.execN).interrupted = true) :
    (env.streaming = true →
      wrk1 env s cmd echo =
        ([.pollerStart, .execute cmd echo, .pollerDone, .setBreak, .printConsole kbNotice],
          { s with execN := s.execN + 1 }, Except.ok ()) ∧
      wrk2 env s cmd realCmd colon mode =
        ([.pollerStart, .execute cmd false, .pollerDone, .setBreak, .printConsole kbNotice],
          { s with execN := s.execN + 1 }, Except.ok ())) ∧
    (env.streaming = false →
      wrk1 env s cmd echo =
        ([.execute cmd echo, .setBreak, .printConsole kbNotice],
          { s with execN := s.execN + 1 }, Except.ok ()) ∧
      wrk2 env s cmd realCmd colon mode =
        ([.execute cmd false, .setBreak, .printConsole kbNotice],
          { s with execN := s.execN + 1 }, Except.ok ())) := by
  constructor
  · intro hs
    constructor <;> simp [wrk1, wrk2, hs, hint]
  · intro hs
    constructor <;> simp [wrk1, wrk2, hs, hint]

/-- C9 witness: the interrupt handling evaluated on a concrete streaming
environment whose engine call is interrupted. -/
theorem C9_witness :
    (envInt.engine 0).interrupted = true ∧
    wrk1 envInt ⟨0, 0, 0, 0⟩ "display 1" false =
      ([.pollerStart, .execute "display 1" false, .pollerDone, .setBreak,
        .printConsole kbNotice], ⟨1, 0, 0, 0⟩, Except.ok ()) :=
  ⟨rfl, ((C9_interrupt_handling envInt ⟨0, 0, 0, 0⟩ "display 1" "" false false 2 rfl).1 rfl).1⟩

/-- C8 (amended): in streaming mode, on the normal (uninterrupted) path
both workers push the return code, join the poller and then stop it
before returning; on the `KeyboardInterrupt` path the poller is stopped
(`pollerDone`) but never joined (`pollerJoin` is absent from the trace),
so the claimed join-before-return does not hold on the cancellation
path. -/
theorem C8_poller_lifecycle (env : Env) (s : S) (cmd realCmd : String) (echo colon : Bool)
    (mode : Nat) (hs : env.streaming = true) :
    ((env.engine s.execN).interrupted = false →
      (wrk1 env s cmd echo).1 =
        [.pollerStart, .execute cmd echo, .pollerPut (env.engine s.execN).rc, .pollerJoin,
          .pollerDone] ∧
      (wrk2 env s cmd realCmd colon mode).1 =
        [.pollerStart, .execute cmd false, .pollerPut (env.engine s.execN).rc, .pollerJoin,
          .pollerDone]) ∧
    ((env.engine s.execN).interrupted = true →
      (Event.pollerDone ∈ (wrk1 env s cmd echo).1 ∧
        Event.pollerJoin ∉ (wrk1 env s cmd echo).1) ∧
      (Event.pollerDone ∈ (wrk2 env s cmd realCmd colon mode).1 ∧
        Event.pollerJoin ∉ (wrk2 env s cmd realCmd colon mode).1)) := by
  constructor
  · intro hi
    constructor <;> simp [wrk1, wrk2, hs, hi]
  · intro hi
    constructor <;> constructor <;> simp [wrk1, wrk2, hs, hi]

/-- C8 witness: the poller lifecycle evaluated on a concrete streaming
environment with an uninterrupted engine call. -/
theorem C8_witness :
    envStrOk.streaming = true ∧ (envStrOk.engine 0).interrupted = false ∧
    (wrk1 envStrOk ⟨0, 0, 0, 0⟩ "display 1" false).1 =
      [.pollerStart, .execute "display 1" false, .pollerPut 0, .pollerJoin, .pollerDone] :=
  ⟨rfl, rfl,
    ((C8_poller_lifecycle envStrOk ⟨0, 0, 0, 0⟩ "display 1" "" false false 2 rfl).1 rfl).1⟩

/-- C8 counterexample: with an interrupted streaming execute call the
poller is started but the trace returned by `_stata_wrk1` contains no
join of it, refuting the claim that the poller is always joined before
the call returns, including on the `KeyboardInterrupt` path. -/
theorem C8_counterexample :
    Event.pollerStart ∈ (wrk1 envInt ⟨0, 0, 0, 0⟩ "display 1" false).1 ∧
    Event.pollerJoin ∉ (wrk1 envInt ⟨0, 0, 0, 0⟩ "display 1" false).1 := by
  constructor <;> decide

/-- C2 (amended): with streaming off and an uninterrupted engine call
returning a nonzero code, `_stata_wrk1` always raises `SystemError`
(3000 included); `_stata_wrk2` in BatchFile mode (mode 1) raises
`SystemError` carrying the first output chunk for every nonzero code
except 3000, while a 3000 code is silently accepted: the call returns
`Except.ok` having produced only the execute event (no output, no
error). -/
theorem C2_nonzero_codes (env : Env) (s : S) (c realCmd : String) (echo colon : Bool)
    (rc : Int) (chunks : List String)
    (hs : env.streaming = false)
    (heng : env.engine s.execN = ⟨false, rc, chunks⟩)
    (hrc : rc ≠ 0) :
    (∃ msg, (wrk1 env s c echo).2.2 = Except.error msg) ∧
    (rc ≠ 3000 → (wrk2 env s c realCmd colon 1).2.2 = Except.error (chunks.headD "")) ∧
    (rc = 3000 → wrk2 env s c realCmd colon 1 =
      ([Event.execute c false], ⟨s.execN + 1, s.inN, s.tmpN, rc⟩, Except.ok ())) := by
  refine ⟨?_, ?_, ?_⟩
  · cases chunks with
    | nil =>
      exact ⟨"failed to execute the specified command",
        by simp [wrk1, hs, heng, drain1, hrc]⟩
    | cons ch rest =>
      by_cases hch : ch = ""
      · exact ⟨"failed to execute the specified command",
          by simp [wrk1, hs, heng, drain1, hrc, hch]⟩
      · exact ⟨ch, by simp [wrk1, hs, heng, drain1, hrc, hch]⟩
  · intro h3
    simp [wrk2, hs, heng, hrc, h3]
  · intro h3
    subst h3
    simp [wrk2, hs, heng, hrc]

/-- C2 witness: a nonzero return code in SingleLine mode surfaces as a
`SystemError`, evaluated on a concrete non-streaming environment whose
engine returns 498. -/
theorem C2_witness :
    envErr.streaming = false ∧ envErr.engine 0 = ⟨false, 498, ["err"]⟩ ∧ (498 : Int) ≠ 0 ∧
    ∃ msg, (wrk1 envErr ⟨0, 0, 0, 0⟩ "display 1" false).2.2 = Except.error msg :=
  ⟨rfl, rfl, by decide,
    (C2_nonzero_codes envErr ⟨0, 0, 0, 0⟩ "display 1" "" false false 498 ["err"]
      rfl rfl (by decide)).1⟩

/-- C2 counterexample: a two-line command (BatchFile mode) whose include
returns code 3000 completes with `Except.ok ()` and prints nothing — the
continuation code is silently accepted as success instead of being
surfaced as an ordinary execution error. -/
theorem C2_counterexample :
    run env3000 1 ⟨0, 0, 0, 0⟩ "a\nb" false false (some false) =
      some ([Event.clearBuffer, Event.writeFile "STD_TMP_0" "a\nb",
        Event.execute "include STD_TMP_0" false], ⟨1, 0, 1, 3000⟩, Except.ok ()) := by
  rfl

/-- C1 (amended): in a mata session with streaming off, a 3000 return
code produces no forwarded output (the step's trace holds exactly the
staging write and the execute) and moves the session to the continuation
prompt `"> "` with the accumulated source retained; but a nonzero,
non-3000 code makes the mata step leave the session loop (`stop`), and
in a python session any nonzero code (3000 included) does the same,
rather than returning to the primary prompt. -/
theorem C1_continuation_codes (env : Env) (qui colon : Bool)
    (inputCmd incmd inprompt inc1 inc2 : String) (s : S) (rc : Int) (chunks : List String)
    (heng : env.engine s.execN = ⟨false, rc, chunks⟩) :
    (env.streaming = false → rc = 3000 →
      mataStep env qui colon inputCmd incmd inprompt inc1 inc2 s =
        ([Event.writeFile (tempName s.tmpN)
            (inputCmd ++ "\n" ++ (inc1 ++ (incmd ++ "\n")) ++ "end"),
          Event.execute ((if qui then "qui include " else "include ") ++ tempName s.tmpN)
            false],
          ⟨s.execN + 1, s.inN, s.tmpN + 1, 3000⟩,
          SessNext.await "> " (inc1 ++ (incmd ++ "\n"))
            (inc2 ++ (inprompt ++ (incmd ++ "\n"))))) ∧
    (rc ≠ 0 → rc ≠ 3000 →
      (mataStep env qui colon inputCmd incmd inprompt inc1 inc2 s).2.2 = SessNext.stop) ∧
    (rc ≠ 0 →
      (stataEscape (inprompt ++ incmd) = true ∨
        env.compileCommand (inc1 ++ incmd) ≠ CompileRes.incomplete) →
      (pythonStep env qui colon inputCmd incmd inprompt inc1 inc2 s).2.2 = SessNext.stop) := by
  refine ⟨?_, ?_, ?_⟩
  · intro hs h3
    subst h3
    simp [mataStep, wrk2, hs, heng]
  · intro h0 h3
    by_cases hs : env.streaming = true <;> simp [mataStep, wrk2, hs, heng, h0, h3]
  · intro h0 hesc
    by_cases hse : stataEscape (inprompt ++ incmd) = true
    · by_cases hs : env.streaming = true <;> by_cases h3 : rc = 3000 <;>
        simp [pythonStep, wrk2, hse, hs, heng, h0, h3]
    · rcases hesc with hesc | hesc
      · exact absurd hesc hse
      · cases hcc : env.compileCommand (inc1 ++ incmd) with
        | complete =>
          by_cases hs : env.streaming = true <;> by_cases h3 : rc = 3000 <;>
            simp [pythonStep, wrk2, hse, hcc, hs, heng, h0, h3]
        | incomplete => exact absurd hcc hesc
        | hardError =>
          by_cases hs : env.streaming = true <;> by_cases h3 : rc = 3000 <;>
            simp [pythonStep, wrk2, hse, hcc, hs, heng, h0, h3]

/-- C1 witness: the continuation behaviour evaluated on a concrete mata
step whose engine call returns 3000. -/
theorem C1_witness :
    env3000.streaming = false ∧ env3000.engine 0 = ⟨false, 3000, []⟩ ∧
    mataStep env3000 false false "mata" "x=1" ": " "" "" ⟨0, 0, 0, 0⟩ =
      ([Event.writeFile "STD_TMP_0" "mata\nx=1\nend",
        Event.execute "include STD_TMP_0" false],
        ⟨1, 0, 1, 3000⟩, SessNext.await "> " "x=1\n" ": x=1\n") :=
  ⟨rfl, rfl, by
    have h := (C1_continuation_codes env3000 false false "mata" "x=1" ": " "" ""
      ⟨0, 0, 0, 0⟩ 3000 [] rfl).1 rfl rfl
    simpa using h⟩

/-- C1 counterexample: a mata step whose engine call returns 498 makes
the session loop terminate (`stop`) instead of abandoning the unit and
returning to the primary prompt (`await ": " "" ""`) as the claim
states. -/
theorem C1_counterexample :
    (mataStep envErr false false "mata" "x" ": " "" "" ⟨0, 0, 0, 0⟩).2.2 = SessNext.stop ∧
    SessNext.stop ≠ SessNext.await ": " "" "" := by
  constructor
  · rfl
  · decide

/-- C5: in a python (Script-kind) session, each non-`end` line that does
not trip the escape test triggers a completeness check of the
accumulated unit by `codeop.compile_command`: an incomplete verdict
produces no events (in particular no engine execute) and awaits a
continuation line at the `"... "` prompt with the accumulated source
retained; a complete verdict or a hard parse error stages the
accumulated unit into a fresh temp file and executes an include of
it. -/
theorem C5_completeness_check (env : Env) (qui colon : Bool)
    (inputCmd l inprompt inc1 inc2 : String) (s : S)
    (hse : stataEscape (inprompt ++ l) = false) :
    (env.compileCommand (inc1 ++ l) = CompileRes.incomplete →
      pythonStep env qui colon inputCmd l inprompt inc1 inc2 s =
        ([], s,
          SessNext.await "... " (inc1 ++ l ++ "\n") (inc2 ++ (inprompt ++ l) ++ "\n"))) ∧
    (env.compileCommand (inc1 ++ l) = CompileRes.complete →
      ∃ ev s' nxt,
        pythonStep env qui colon inputCmd l inprompt inc1 inc2 s =
          (Event.writeFile (tempName s.tmpN)
            (inputCmd ++ "\n" ++ (inc1 ++ l ++ "\n") ++ "end") :: ev, s', nxt) ∧
        Event.execute ((if qui then "qui include " else "include ") ++ tempName s.tmpN)
          false ∈ ev) ∧
    (env.compileCommand (inc1 ++ l) = CompileRes.hardError →
      ∃ ev s' nxt,
        pythonStep env qui colon inputCmd l inprompt inc1 inc2 s =
          (Event.writeFile (tempName s.tmpN)
            (inputCmd ++ "\n" ++ (inc1 ++ l) ++ "end") :: ev, s', nxt) ∧
        Event.execute ((if qui then "qui include " else "include ") ++ tempName s.tmpN)
          false ∈ ev) := by
  refine ⟨?_, ?_, ?_⟩
  · intro hcc
    simp [pythonStep, hse, hcc]
  · intro hcc
    obtain ⟨pre, tail, s', r, hw, hpre, htail⟩ := wrk2_shape env { s with tmpN := s.tmpN + 1 }
      ((if qui then "qui include " else "include ") ++ tempName s.tmpN)
      (inc2 ++ (inprompt ++ l) ++ "\n") colon 3
    refine ⟨pre ++ Event.execute ((if qui then "qui include " else "include ")
      ++ tempName s.tmpN) false :: tail, s', ?_⟩
    cases r with
    | error e => exact ⟨SessNext.raised e, by simp [pythonStep, hse, hcc, hw], by simp⟩
    | ok u =>
      by_cases hr : s'.rc2 ≠ 0
      · exact ⟨SessNext.stop, by simp [pythonStep, hse, hcc, hw, hr], by simp⟩
      · exact ⟨SessNext.await ">>> " "" "", by simp [pythonStep, hse, hcc, hw, hr], by simp⟩
  · intro hcc
    obtain ⟨pre, tail, s', r, hw, hpre, htail⟩ := wrk2_shape env { s with tmpN := s.tmpN + 1 }
      ((if qui then "qui include " else "include ") ++ tempName s.tmpN)
      (inc2 ++ (inprompt ++ l)) colon 3
    refine ⟨pre ++ Event.execute ((if qui then "qui include " else "include ")
      ++ tempName s.tmpN) false :: tail, s', ?_⟩
    cases r with
    | error e => exact ⟨SessNext.raised e, by simp [pythonStep, hse, hcc, hw], by simp⟩
    | ok u =>
      by_cases hr : s'.rc2 ≠ 0
      · exact ⟨SessNext.stop, by simp [pythonStep, hse, hcc, hw, hr], by simp⟩
      · exact ⟨SessNext.await ">>> " "" "", by simp [pythonStep, hse, hcc, hw, hr], by simp⟩

/-- C5 witness: the completeness check evaluated on a concrete python
session: `if True:` alone is incomplete, so the controller awaits a
continuation line without executing. -/
theorem C5_witness :
    stataEscape (">>> " ++ "if True:") = false ∧
    envIf.compileCommand ("" ++ "if True:") = CompileRes.incomplete ∧
    pythonStep envIf false false "python" "if True:" ">>> " "" "" ⟨0, 0, 0, 0⟩ =
      ([], ⟨0, 0, 0, 0⟩,
        SessNext.await "... " ("" ++ "if True:" ++ "\n") ("" ++ (">>> " ++ "if True:") ++ "\n")) :=
  ⟨by decide, by decide,
    (C5_completeness_check envIf false false "python" "if True:" ">>> " "" "" ⟨0, 0, 0, 0⟩
      (by decide)).1 (by decide)⟩

/-- C6 (code bug): the python session's escape test compares the first
six characters of the prompt-prefixed line against `stata:`, so it can
never fire (every prompt starts with `>>> ` or `... `); here the user
line `stata:(` does carry the escape marker, yet the step consults the
completeness checker (which reports incomplete) and awaits a
continuation line instead of executing the line immediately as its own
unit. -/
theorem C6_escape_dead :
    stataEscape "stata:(" = true ∧
    stataEscape (">>> " ++ "stata:(") = false ∧
    pythonStep envEsc false false "python" "stata:(" ">>> " "" "" ⟨0, 0, 0, 0⟩ =
      ([], ⟨0, 0, 0, 0⟩, SessNext.await "... " "stata:(\n" ">>> stata:(\n") := by
  refine ⟨by decide, by decide, ?_⟩
  rfl

/-- C3 (amended): for a single-line, non-trigger command with `inline`
resolving to false, `run` clears the output buffer as its first action
and the rest of the trace contains exactly one engine execute call,
namely of the (possibly `qui `-prefixed) command — so the buffer clear
is immediately before it, with no intervening execute.  (With `inline`
resolving to true the `qui _gr_list on` toggle is executed between the
clear and the command; see the counterexample.) -/
theorem C3_single_line (env : Env) (fuel : Nat) (s0 : S) (cmd c : String)
    (quietly echo : Bool) (inline : Option Bool)
    (hsl : splitlines cmd = [c])
    (hm : ¬(pstrip c = "mata" ∨ pstrip c = "mata:"))
    (hp : ¬(pstrip c = "python" ∨ pstrip c = "python:"))
    (hinl : inline.getD env.grshow = false) :
    ∃ ev s' r,
      run env fuel s0 cmd quietly echo inline = some (Event.clearBuffer :: ev, s', r) ∧
      ev.filter Event.isExec =
        [Event.execute (if quietly then "qui " ++ c else c) echo] := by
  obtain ⟨pre, tail, r, hw, hpre, htail⟩ :=
    wrk1_shape env s0 (if quietly then "qui " ++ c else c) echo
  refine ⟨pre ++ Event.execute (if quietly then "qui " ++ c else c) echo :: tail,
    { s0 with execN := s0.execN + 1 }, r, ?_, ?_⟩
  · simp [run, hsl, hm, hp, hinl, hw, finish_false]
  · simp [List.filter_append, all_pollerStart_filter_exec hpre, List.filter_cons,
      Event.isExec, all_passive_filter_exec htail]

/-- C3 witness: a single-line command with `inline` off, evaluated on a
concrete environment: the trace starts with the buffer clear and its
only execute is of the command itself. -/
theorem C3_witness :
    splitlines "display 1" = ["display 1"] ∧
    ¬(pstrip "display 1" = "mata" ∨ pstrip "display 1" = "mata:") ∧
    (some false : Option Bool).getD envOk.grshow = false ∧
    ∃ ev s' r,
      run envOk 1 ⟨0, 0, 0, 0⟩ "display 1" false false (some false) =
        some (Event.clearBuffer :: ev, s', r) ∧
      ev.filter Event.isExec = [Event.execute "display 1" false] :=
  ⟨by decide, by decide, rfl, by
    have h := C3_single_line envOk 1 ⟨0, 0, 0, 0⟩ "display 1" "display 1" false false
      (some false) (by decide) (by decide) (by decide) rfl
    simpa using h⟩

/-- C3 counterexample: the same single-line command with `inline := true`
executes `qui _gr_list on` between the buffer clear and the command's
execute (and `qui _gr_list off` after it), so the trace has three
executes, not one, and the clear is not immediately before the
command's execute. -/
theorem C3_counterexample :
    run envOk 1 ⟨0, 0, 0, 0⟩ "display 1" false false (some true) =
      some ([Event.clearBuffer, Event.execute "qui _gr_list on" false,
        Event.execute "display 1" false, Event.printOut "out" false,
        Event.execute "qui _gr_list off" false], ⟨3, 0, 0, 0⟩, Except.ok ()) ∧
    ([Event.clearBuffer, Event.execute "qui _gr_list on" false,
      Event.execute "display 1" false, Event.printOut "out" false,
      Event.execute "qui _gr_list off" false].filter Event.isExec ≠
      [Event.execute "display 1" false]) := by
  constructor
  · rfl
  · decide

/-- C4: a multi-line command (at least two lines) is staged verbatim:
the trace's only temp-file write is of the full command text into one
fresh staging file, and the include of that file is executed exactly
once (not once per line), for every inline/quietly setting and engine
behaviour. -/
theorem C4_batch_staging (env : Env) (fuel : Nat) (s0 : S) (cmd : String)
    (quietly echo : Bool) (inline : Option Bool) (l1 l2 : String) (rest : List String)
    (hsl : splitlines cmd = l1 :: l2 :: rest) :
    ∃ ev s' r,
      run env fuel s0 cmd quietly echo inline = some (ev, s', r) ∧
      ev.filter Event.isWrite = [Event.writeFile (tempName s0.tmpN) cmd] ∧
      ev.count (Event.execute ((if quietly then "qui include " else "include ")
        ++ tempName s0.tmpN) false) = 1 := by
  have hOn : Event.execute ((if quietly then "qui include " else "include ")
      ++ tempName s0.tmpN) false ≠ Event.execute "qui _gr_list on" false := by
    cases quietly <;> simp
    · exact include_ne_grOn _
    · exact quiInclude_ne_grOn _
  have hOff : Event.execute ((if quietly then "qui include " else "include ")
      ++ tempName s0.tmpN) false ≠ Event.execute "qui _gr_list off" false := by
    cases quietly <;> simp
    · exact include_ne_grOff _
    · exact quiInclude_ne_grOff _
  by_cases hinl : inline.getD env.grshow = true
  · obtain ⟨pre, tail, s', r, hw, hpre, htail⟩ :=
      wrk2_shape env { s0 with execN := s0.execN + 1, tmpN := s0.tmpN + 1 }
        ((if quietly then "qui include " else "include ") ++ tempName s0.tmpN) "" false 1
    cases r with
    | error e =>
      refine ⟨Event.clearBuffer :: Event.execute "qui _gr_list on" false ::
        Event.writeFile (tempName s0.tmpN) cmd ::
        (pre ++ Event.execute ((if quietly then "qui include " else "include ")
          ++ tempName s0.tmpN) false :: tail), s', Except.error e, ?_, ?_, ?_⟩
      · simp [run, hsl, hinl, directExec, hw, finish]
      · simp [List.filter_append, Event.isWrite, all_pollerStart_filter_write hpre,
          List.filter_cons, all_passive_filter_write htail, Event.isExec]
      · simp [List.count_append, List.count_cons, hOn.symm, hOn, hOff,
          all_pollerStart_count_exec hpre, all_passive_count_exec htail]
    | ok u =>
      refine ⟨(Event.clearBuffer :: Event.execute "qui _gr_list on" false ::
        Event.writeFile (tempName s0.tmpN) cmd ::
        (pre ++ Event.execute ((if quietly then "qui include " else "include ")
          ++ tempName s0.tmpN) false :: tail)) ++
        (if env.stipython ≥ 3 then [Event.grDisplay] else []) ++
        [Event.execute "qui _gr_list off" false],
        { s' with execN := s'.execN + 1 }, Except.ok (), ?_, ?_, ?_⟩
      · simp [run, hsl, hinl, directExec, hw, finish]
      · by_cases hpy : env.stipython ≥ 3 <;>
          simp [hpy, List.filter_append, Event.isWrite, all_pollerStart_filter_write hpre,
            List.filter_cons, all_passive_filter_write htail]
      · by_cases hpy : env.stipython ≥ 3 <;>
          simp [hpy, List.count_append, List.count_cons, hOn.symm, hOn, hOff, hOff.symm,
            all_pollerStart_count_exec hpre, all_passive_count_exec htail]
  · have hinl' : inline.getD env.grshow = false := by
      cases h : inline.getD env.grshow
      · rfl
      · exact absurd h hinl
    obtain ⟨pre, tail, s', r, hw, hpre, htail⟩ :=
      wrk2_shape env { s0 with tmpN := s0.tmpN + 1 }
        ((if quietly then "qui include " else "include ") ++ tempName s0.tmpN) "" false 1
    refine ⟨Event.clearBuffer :: Event.writeFile (tempName s0.tmpN) cmd ::
      (pre ++ Event.execute ((if quietly then "qui include " else "include ")
        ++ tempName s0.tmpN) false :: tail), s', r, ?_, ?_, ?_⟩
    · simp [run, hsl, hinl', hw, finish_false]
    · simp [List.filter_append, Event.isWrite, all_pollerStart_filter_write hpre,
        List.filter_cons, all_passive_filter_write htail]
    · simp [List.count_append, List.count_cons, hOn.symm, hOn, hOff,
        all_pollerStart_count_exec hpre, all_passive_count_exec htail]

/-- C4 witness: a three-line command evaluated on a concrete
environment: one staging write holding the full text, one include
execute. -/
theorem C4_witness :
    splitlines "l1\nl2\nl3" = ["l1", "l2", "l3"] ∧
    ∃ ev s' r,
      run envOk 1 ⟨0, 0, 0, 0⟩ "l1\nl2\nl3" false false none = some (ev, s', r) ∧
      ev.filter Event.isWrite = [Event.writeFile "STD_TMP_0" "l1\nl2\nl3"] ∧
      ev.count (Event.execute "include STD_TMP_0" false) = 1 :=
  ⟨by decide, by
    have h := C4_batch_staging envOk 1 ⟨0, 0, 0, 0⟩ "l1\nl2\nl3" false false none
      "l1" "l2" ["l3"] (by decide)
    simpa using h⟩

/-- C7 (amended): when `inline` resolves to true and the command is
nonempty, every run that returns without raising has the capture-on
toggle `qui _gr_list on` as its second event (right after the buffer
clear, before the command executes) and the capture-off toggle
`qui _gr_list off` as its last event.  When the execution raises
`SystemError`, the off-toggle is skipped (see the counterexample), so
the claim's "on every outcome" does not hold. -/
theorem C7_inline_toggles (env : Env) (fuel : Nat) (s0 : S) (cmd : String)
    (quietly echo : Bool) (inline : Option Bool) (ev : List Event) (s' : S)
    (hinl : inline.getD env.grshow = true)
    (hne : splitlines cmd ≠ [])
    (hrun : run env fuel s0 cmd quietly echo inline = some (ev, s', Except.ok ())) :
    ev[1]? = some (Event.execute "qui _gr_list on" false) ∧
    ev.getLast? = some (Event.execute "qui _gr_list off" false) := by
  rcases hsl : splitlines cmd with _ | ⟨c, _ | ⟨c2, cs⟩⟩
  · exact absurd hsl hne
  · simp only [run, hsl, hinl, directExec, eq_self_iff_true, if_true] at hrun
    split at hrun
    · split at hrun
      · simp at hrun
      · obtain ⟨mid, hmid⟩ := finish_true_ok _ _ _ _ _ _ hrun
        exact toggle_trace_facts ev _ mid hmid
    · split at hrun
      · split at hrun
        · simp at hrun
        · obtain ⟨mid, hmid⟩ := finish_true_ok _ _ _ _ _ _ hrun
          exact toggle_trace_facts ev _ mid hmid
      · obtain ⟨mid, hmid⟩ := finish_true_ok _ _ _ _ _ _ hrun
        exact toggle_trace_facts ev _ mid hmid
  · simp only [run, hsl, hinl, directExec, eq_self_iff_true, if_true] at hrun
    obtain ⟨mid, hmid⟩ := finish_true_ok _ _ _ _ _ _ hrun
    exact toggle_trace_facts ev _ mid hmid

/-- C7 witness: a successful inline run on a concrete environment: the
capture-on toggle is the second event and the capture-off toggle is the
final event of the trace. -/
theorem C7_witness :
    (some true : Option Bool).getD envOk.grshow = true ∧
    splitlines "display 1" ≠ [] ∧
    ([Event.clearBuffer, Event.execute "qui _gr_list on" false,
      Event.execute "display 1" false, Event.printOut "out" false,
      Event.execute "qui _gr_list off" false][1]? =
        some (Event.execute "qui _gr_list on" false) ∧
      [Event.clearBuffer, Event.execute "qui _gr_list on" false,
        Event.execute "display 1" false, Event.printOut "out" false,
        Event.execute "qui _gr_list off" false].getLast? =
        some (Event.execute "qui _gr_list off" false)) :=
  ⟨rfl, by decide,
    C7_inline_toggles envOk 1 ⟨0, 0, 0, 0⟩ "display 1" false false (some true)
      [Event.clearBuffer, Event.execute "qui _gr_list on" false,
        Event.execute "display 1" false, Event.printOut "out" false,
        Event.execute "qui _gr_list off" false] ⟨3, 0, 0, 0⟩ rfl (by decide) rfl⟩

/-- C7 counterexample: with `inline := true` and an engine call that
fails (code 498), `run` raises `SystemError` and the trace contains the
capture-on toggle but no capture-off toggle: the graphic capture is left
enabled, refuting "toggled off after it, on every outcome". -/
theorem C7_counterexample :
    run envErr 1 ⟨0, 0, 0, 0⟩ "display 1" false false (some true) =
      some ([Event.clearBuffer, Event.execute "qui _gr_list on" false,
        Event.execute "display 1" false], ⟨2, 0, 0, 0⟩, Except.error "err") ∧
    Event.execute "qui _gr_list off" false ∉
      [Event.clearBuffer, Event.execute "qui _gr_list on" false,
        Event.execute "display 1" false] := by
  constructor
  · rfl
  · decide

/-- C10: mata-session input lines are stripped before the `end` test and
accumulation: the whole mata loop is insensitive to surrounding
whitespace in its input lines, and a whitespace-padded `end` terminates
the session; python-session lines are taken exactly as typed: replacing
the exact line `end` by the padded ` end ` changes the session (the
padded line is processed as an ordinary unit line), and an accumulated
line enters the unit's source verbatim, untrimmed. -/
theorem C10_line_handling :
    (∀ env uin uin' qui colon inputCmd fuel inprompt inc1 inc2 s,
      (∀ n, pstrip (uin n) = pstrip (uin' n)) →
      mataLoop env uin qui colon inputCmd fuel inprompt inc1 inc2 s =
        mataLoop env uin' qui colon inputCmd fuel inprompt inc1 inc2 s) ∧
    (∀ env uin qui colon inputCmd fuel inprompt inc1 inc2 s,
      pstrip (uin s.inN) = "end" →
      mataLoop env uin qui colon inputCmd (fuel + 1) inprompt inc1 inc2 s =
        some ([Event.displayln "\x7bhline\x7d"], { s with inN := s.inN + 1 },
          Except.ok ())) ∧
    ((∀ n, pstrip (envPadEnd.userInput n) = pstrip (envPlainEnd.userInput n)) ∧
      pythonLoop envPadEnd envPadEnd.userInput false false "python" 2 ">>> " "" ""
          ⟨0, 0, 0, 0⟩ ≠
        pythonLoop envPadEnd envPlainEnd.userInput false false "python" 2 ">>> " "" ""
          ⟨0, 0, 0, 0⟩) ∧
    (∀ env qui colon inputCmd l inprompt inc1 inc2 s,
      stataEscape (inprompt ++ l) = false →
      env.compileCommand (inc1 ++ l) = CompileRes.incomplete →
      pythonStep env qui colon inputCmd l inprompt inc1 inc2 s =
        ([], s,
          SessNext.await "... " (inc1 ++ l ++ "\n") (inc2 ++ (inprompt ++ l) ++ "\n"))) := by
  refine ⟨?_, ?_, ⟨?_, ?_⟩, ?_⟩
  · intro env uin uin' qui colon inputCmd fuel inprompt inc1 inc2 s hu
    exact mataLoop_input_trim env uin uin' qui colon inputCmd hu fuel inprompt inc1 inc2 s
  · intro env uin qui colon inputCmd fuel inprompt inc1 inc2 s hend
    simp [mataLoop, hend]
  · intro n
    cases n with
    | zero => decide
    | succ m => rfl
  · decide
  · intro env qui colon inputCmd l inprompt inc1 inc2 s hse hcc
    simp [pythonStep, hse, hcc]

/-- C10 witness: the line-handling facts applied to a concrete mata
session whose first typed line is the whitespace-padded ` end `: the
loop result is unchanged when the padding is removed, and the padded
line terminates the session immediately. -/
theorem C10_witness :
    (∀ n, pstrip (envPadEnd.userInput n) = pstrip (envPlainEnd.userInput n)) ∧
    mataLoop envPadEnd envPadEnd.userInput false false "mata" 3 ": " "" "" ⟨0, 0, 0, 0⟩ =
      mataLoop envPadEnd envPlainEnd.userInput false false "mata" 3 ": " "" "" ⟨0, 0, 0, 0⟩ ∧
    pstrip (envPadEnd.userInput 0) = "end" ∧
    mataLoop envPadEnd envPadEnd.userInput false false "mata" 1 ": " "" "" ⟨0, 0, 0, 0⟩ =
      some ([Event.displayln "\x7bhline\x7d"], ⟨0, 1, 0, 0⟩, Except.ok ()) := by
  have hu : ∀ n, pstrip (envPadEnd.userInput n) = pstrip (envPlainEnd.userInput n) := by
    intro n
    cases n with
    | zero => decide
    | succ m => rfl
  refine ⟨hu, ?_, by decide, ?_⟩
  · exact C10_line_handling.1 envPadEnd envPadEnd.userInput envPlainEnd.userInput false false
      "mata" 3 ": " "" "" ⟨0, 0, 0, 0⟩ hu
  · exact C10_line_handling.2.1 envPadEnd envPadEnd.userInput false false "mata" 0 ": " "" ""
      ⟨0, 0, 0, 0⟩ (by decide)

end Stata
